import Mathlib

/-!
# Verification of the `cairo_native` AOT executor and libfunc lowering core

Shallow embedding of `src/executor/aot.rs` and `src/libfuncs/unconditional_jump.rs`.
External collaborators that the excerpt consumes but whose code is not part of the
sources (the gas-metadata query, the dynamic invocation core, the MLIR helper, the
compile/link/load pipeline, the result-reshaping function and the error enum) are
modelled from the specification; each such definition says so in its doc comment.
-/

namespace CairoNative

/-- A Sierra function id (`cairo_lang_sierra::ids::FunctionId`): a numeric id plus
an optional debug name. -/
structure FunctionId where
  id : Nat
  debug_name : Option String
deriving DecidableEq, Repr

/-- A type id occurring in a function signature; opaque for this development. -/
abbrev TypeId := Nat

/-- `cairo_lang_sierra::program::FunctionSignature`: ordered parameter types and
return types. -/
structure FunctionSignature where
  param_types : List TypeId
  ret_types : List TypeId
deriving DecidableEq, Repr

/-- The program registry (`ProgramRegistry<CoreType, CoreLibfunc>`), reduced to the
one lookup the executor uses: function id to function declaration (signature). -/
structure ProgramRegistry where
  functions : List (FunctionId × FunctionSignature)
deriving DecidableEq, Repr

/-- Registry lookup, `registry.get_function(function_id)`: `none` models the
`Err` case that `aot.rs` unwraps. -/
def ProgramRegistry.get_function (r : ProgramRegistry) (function_id : FunctionId) :
    Option FunctionSignature :=
  (r.functions.lookup function_id)

/-- A field element crossing the native boundary, kept abstract as a natural. -/
abbrev Felt := Nat

/-- The tagged runtime value (`JitValue`), restricted to the variants `aot.rs`
constructs: field element, ordered array, composite struct with fields and an
optional debug name. -/
inductive JitValue where
  | Felt252 (value : Felt)
  | Array (values : List JitValue)
  | Struct (fields : List JitValue) (debug_name : Option String)

/-- Modelled from the spec: `ExecutionResult` is "return values (tree of Value) plus
remaining gas" carrying "a structured success/failure discriminant for in-program
faults" (its source file is not part of the excerpt). -/
structure ExecutionResult where
  remaining_gas : Option Nat
  return_value : JitValue
  failure_flag : Bool

mutual

/-- Collect the field-element leaves of a value tree, in order. -/
def JitValue.feltLeaves : JitValue → List Felt
  | .Felt252 v => [v]
  | .Array values => feltLeavesList values
  | .Struct fields _ => feltLeavesList fields

/-- Field-element leaves of a list of value trees, in order. -/
def feltLeavesList : List JitValue → List Felt
  | [] => []
  | v :: vs => v.feltLeaves ++ feltLeavesList vs

end

/-- Modelled from the spec: `ContractExecutionResult` is the `ExecutionResult`
"reshaped for the convention where a single composite argument wraps a flat
sequence of scalar inputs" (its source file is not part of the excerpt). -/
structure ContractExecutionResult where
  remaining_gas : Option Nat
  failure_flag : Bool
  return_values : List Felt

/-- Modelled from the spec: `ContractExecutionResult::from_execution_result`
"reshapes the raw result for contract-style callers" (its source file is not part
of the excerpt); it flattens the returned value tree into the flat scalar sequence
and keeps gas and the failure discriminant. -/
def ContractExecutionResult.from_execution_result (r : ExecutionResult) :
    ContractExecutionResult :=
  { remaining_gas := r.remaining_gas
    failure_flag := r.failure_flag
    return_values := r.return_value.feltLeaves }

/-- Modelled from the spec: the causes a gas-metadata query can fail with; §9 keeps
"metadata is missing an entry" and "genuinely insufficient gas" as distinct
outcomes of the underlying query (the gas-metadata source file is not part of the
excerpt). -/
inductive GasMetadataError where
  | missingEntry
  | notEnoughGas
deriving DecidableEq, Repr

/-- Modelled from the spec: `GasMetadata` is "per-function static cost data"
(its source file is not part of the excerpt), reduced to the per-function initial
cost table the executor queries. -/
structure GasMetadata where
  initial_costs : List (FunctionId × Nat)
deriving DecidableEq, Repr

/-- Modelled from the spec: `GasMetadata::get_initial_available_gas` realises
"initial_gas(function_id, explicit_gas) -> gas | InsufficientGas. Explicit gas,
when given, always takes precedence over metadata." (the gas-metadata source file
is not part of the excerpt). -/
def GasMetadata.get_initial_available_gas (md : GasMetadata) (function_id : FunctionId)
    (gas : Option Nat) : Except GasMetadataError Nat :=
  match gas with
  | some g => .ok g
  | none =>
    match md.initial_costs.lookup function_id with
    | some c => .ok c
    | none => .error .missingEntry

/-- Modelled from the spec: the typed error enum surfaced by the public entry
points (its source file is not part of the excerpt); §7's taxonomy names gas,
setup and symbol errors. -/
inductive Error where
  | InsufficientGasError
  | SetupError
  | SymbolResolutionError
deriving DecidableEq, Repr

/-- A raw entry pointer (`*mut c_void`), as a numeric address. -/
abbrev FnPtr := Nat

/-- The loaded dynamic artifact (`libloading::Library`), reduced to its exported
symbol table: symbol name to the address `dlsym` resolves. -/
structure Library where
  symbols : List (String × FnPtr)
deriving DecidableEq, Repr

/-- Symbol lookup, `library.get(name)`: `none` models lookup failure (which
`aot.rs` unwraps). -/
def Library.get (lib : Library) (name : String) : Option FnPtr :=
  lib.symbols.lookup name

/-- Modelled from the spec: `generate_function_name` is the "canonical mangled
form of the id", a deterministic mangling of the function id (`utils.rs` is not
part of the excerpt). -/
def generate_function_name (function_id : FunctionId) : String :=
  "f" ++ toString function_id.id

/-- The outcome of a public invocation: a returned value, a typed error returned
through `Result::Err`, or an abort (`panic` from an `unwrap` on the call path). -/
inductive InvokeOutcome (α : Type) where
  | ok (value : α)
  | err (error : Error)
  | panic

/-- Map a pure function over the success value of an invocation outcome, leaving
typed errors and aborts unchanged. -/
def InvokeOutcome.map {α β : Type} (f : α → β) : InvokeOutcome α → InvokeOutcome β
  | .ok v => .ok (f v)
  | .err er => .err er
  | .panic => .panic

/-- The type of the consumed dynamic invocation core (`super::invoke_dynamic`),
generic over the syscall-handler type: registry, entry pointer, signature,
arguments, available gas, optional handler, producing an `ExecutionResult`.
Modelled from the spec: the core is "consumed, not detailed". -/
abbrev InvokeCore (H : Type) :=
  ProgramRegistry → FnPtr → FunctionSignature → List JitValue → Nat → Option H →
    ExecutionResult

/-- `DummySyscallHandler`: the rejecting default handler type used when the caller
supplies none; its inner behaviour is irrelevant here. -/
structure DummySyscallHandler where

/-- `AotNativeExecutor`: the loaded artifact, the program registry, and the gas
metadata (`src/executor/aot.rs`, lines 25-32). -/
structure AotNativeExecutor where
  library : Library
  registry : ProgramRegistry
  gas_metadata : GasMetadata
deriving DecidableEq, Repr

namespace AotNativeExecutor

/-- `AotNativeExecutor::new` (`aot.rs`, lines 35-45). -/
def new (library : Library) (registry : ProgramRegistry) (gas_metadata : GasMetadata) :
    AotNativeExecutor :=
  { library, registry, gas_metadata }

/-- `AotNativeExecutor::find_function_ptr` (`aot.rs`, lines 138-150): mangle the
id, prepend the fixed `_mlir_ciface_` prefix, look the symbol up in the loaded
artifact; `none` models the `unwrap` panic on a missing symbol. -/
def find_function_ptr (self : AotNativeExecutor) (function_id : FunctionId) :
    Option FnPtr :=
  let function_name := generate_function_name function_id
  let function_name := "_mlir_ciface_" ++ function_name
  self.library.get function_name

/-- `AotNativeExecutor::extract_signature` (`aot.rs`, lines 152-154): registry
lookup of the function's signature; `none` models the `unwrap` panic. -/
def extract_signature (self : AotNativeExecutor) (function_id : FunctionId) :
    Option FunctionSignature :=
  self.registry.get_function function_id

/-- `AotNativeExecutor::invoke_dynamic` (`aot.rs`, lines 67-86): resolve initial
gas (mapping any gas-metadata error to `InsufficientGasError` and returning it),
then resolve the entry pointer and signature (each `unwrap` modelled as `panic`
on failure), then run the invocation core with no syscall handler. The core
`core` stands for the consumed `super::invoke_dynamic`. -/
def invoke_dynamic (core : InvokeCore DummySyscallHandler) (self : AotNativeExecutor)
    (function_id : FunctionId) (args : List JitValue) (gas : Option Nat) :
    InvokeOutcome ExecutionResult :=
  match self.gas_metadata.get_initial_available_gas function_id gas with
  | .error _ => .err .InsufficientGasError
  | .ok available_gas =>
    match self.find_function_ptr function_id with
    | none => .panic
    | some ptr =>
      match self.extract_signature function_id with
      | none => .panic
      | some signature =>
        .ok (core self.registry ptr signature args available_gas none)

/-- `AotNativeExecutor::invoke_dynamic_with_syscall_handler` (`aot.rs`, lines
88-108): same call path as `invoke_dynamic`, but the supplied syscall handler is
passed to the invocation core. -/
def invoke_dynamic_with_syscall_handler {H : Type} (core : InvokeCore H)
    (self : AotNativeExecutor) (function_id : FunctionId) (args : List JitValue)
    (gas : Option Nat) (syscall_handler : H) : InvokeOutcome ExecutionResult :=
  match self.gas_metadata.get_initial_available_gas function_id gas with
  | .error _ => .err .InsufficientGasError
  | .ok available_gas =>
    match self.find_function_ptr function_id with
    | none => .panic
    | some ptr =>
      match self.extract_signature function_id with
      | none => .panic
      | some signature =>
        .ok (core self.registry ptr signature args available_gas (some syscall_handler))

/-- `AotNativeExecutor::invoke_contract_dynamic` (`aot.rs`, lines 110-136): same
call path, but the flat scalar inputs are wrapped into the single composite
calldata argument `Struct { fields: [Array (args.map Felt252)], debug_name: None }`
and the raw result is reshaped by `ContractExecutionResult::from_execution_result`. -/
def invoke_contract_dynamic {H : Type} (core : InvokeCore H)
    (self : AotNativeExecutor) (function_id : FunctionId) (args : List Felt)
    (gas : Option Nat) (syscall_handler : H) : InvokeOutcome ContractExecutionResult :=
  match self.gas_metadata.get_initial_available_gas function_id gas with
  | .error _ => .err .InsufficientGasError
  | .ok available_gas =>
    match self.find_function_ptr function_id with
    | none => .panic
    | some ptr =>
      match self.extract_signature function_id with
      | none => .panic
      | some signature =>
        .ok (ContractExecutionResult.from_execution_result
          (core self.registry ptr signature
            [JitValue.Struct [JitValue.Array (args.map JitValue.Felt252)] none]
            available_gas (some syscall_handler)))

end AotNativeExecutor

/-! ## Libfunc lowering: the `jump` libfunc -/

/-- An MLIR source location (`melior::ir::Location`), opaque token. -/
abbrev Location := Nat

/-- An MLIR SSA value usable as a branch operand, opaque token. -/
abbrev MlirValue := Nat

/-- A reference to an MLIR block, opaque token. -/
abbrev BlockRef := Nat

/-- The MLIR context (`melior::Context`), opaque. -/
abbrev Context := Unit

/-- An operation appended to a block. The lowering in the excerpt only ever
constructs unconditional branches: a target block, the carried operands, and a
location. -/
inductive BlockOperation where
  | branch (target : BlockRef) (operands : List MlirValue) (location : Location)
deriving DecidableEq, Repr

/-- An MLIR block as the ordered list of operations appended to it. -/
abbrev Block := List BlockOperation

/-- `block.append_operation(op)`: append one operation at the end of the block. -/
def Block.append_operation (b : Block) (op : BlockOperation) : Block :=
  b ++ [op]

/-- Modelled from the spec: the `LibfuncHelper` is the "builder utility exposing
the operation's declared successor blocks and branch-construction primitives"
(the helper's source file is not part of the excerpt); reduced to the declared
successor blocks. -/
structure LibfuncHelper where
  successors : List BlockRef
deriving DecidableEq, Repr

/-- Modelled from the spec: `helper.br(branch, operands, location)` constructs an
unconditional branch to declared successor branch `branch` carrying `operands`
(the helper's source file is not part of the excerpt). -/
def LibfuncHelper.br (helper : LibfuncHelper) (branch : Nat)
    (operands : List MlirValue) (location : Location) : BlockOperation :=
  .branch (helper.successors.getD branch 0) operands location

/-- `std::convert::Infallible`: the uninhabited error type of lowerings that
cannot fail. -/
inductive Infallible : Type

/-- `SignatureOnlyConcreteLibfunc`: the concrete-operation descriptor; the jump
lowering ignores it, so only its signature field is kept. -/
structure SignatureOnlyConcreteLibfunc where
  signature : FunctionSignature
deriving DecidableEq, Repr

/-- The type-indexed metadata store (`MetadataStorage`), reduced to the entries
this excerpt touches: the optional gas-metadata entry plus opaque other entries. -/
structure MetadataStorage where
  gas : Option GasMetadata
  others : List Nat
deriving DecidableEq, Repr

/-- `metadata.remove::<GasMetadata>()`: extract the gas-metadata entry, removing
it from the store; `none` models the absent-entry case (which `aot.rs` unwraps). -/
def MetadataStorage.remove (s : MetadataStorage) :
    Option (GasMetadata × MetadataStorage) :=
  match s.gas with
  | some g => some (g, { s with gas := none })
  | none => none

namespace UnconditionalJump

/-- `build` for the `jump` libfunc (`src/libfuncs/unconditional_jump.rs`, lines
15-33): append to the entry block the single unconditional branch
`helper.br(0, &[], location)` and return `Ok(())`. The mutation of the entry
block and of the metadata store is made explicit by returning both. -/
def build (_context : Context) (_registry : ProgramRegistry) (entry : Block)
    (location : Location) (helper : LibfuncHelper) (metadata : MetadataStorage)
    (_info : SignatureOnlyConcreteLibfunc) :
    Except Infallible (Block × MetadataStorage) :=
  .ok (entry.append_operation (helper.br 0 [] location), metadata)

end UnconditionalJump

/-! ## Executor construction from a NativeModule -/

/-- The module IR, opaque token. -/
abbrev Module := Nat

/-- The produced object-file bytes, opaque. -/
abbrev ObjectData := List Nat

/-- A filesystem path for the temporary artifact. -/
abbrev LibraryPath := String

/-- `OptLevel`: the optimization level passed to the compile step. -/
inductive OptLevel where
  | None
  | Less
  | Default
  | Aggressive
deriving DecidableEq, Repr

/-- `NativeModule`: the intermediate bundle of module IR, registry and metadata
store, consumed exactly once to build an executor. -/
structure NativeModule where
  module : Module
  registry : ProgramRegistry
  metadata : MetadataStorage
deriving DecidableEq, Repr

/-- Modelled from the spec: the external collaborators of executor construction —
temporary-file creation, "compile module to object", "link object to shared
artifact", and artifact loading — "treated as opaque, failure-propagating
functions" (their source files are not part of the excerpt). `none` models the
failure each `unwrap` in `from_native_module` aborts on. -/
structure CompilerPipeline where
  named_temp_file_new : Option LibraryPath
  module_to_object : Module → OptLevel → Option ObjectData
  object_to_shared_lib : ObjectData → LibraryPath → Option Unit
  library_new : LibraryPath → Option Library

namespace AotNativeExecutor

/-- `AotNativeExecutor::from_native_module` (`aot.rs`, lines 48-65): create the
scoped temporary path, compile the module IR to an object, link it into a shared
artifact at that path, load it, and extract (remove) the gas-metadata entry from
the module's metadata store; each `unwrap` is modelled as `none`, so any failed
step yields no executor at all. -/
def from_native_module (pipe : CompilerPipeline) (module : NativeModule)
    (opt_level : OptLevel) : Option AotNativeExecutor :=
  match pipe.named_temp_file_new with
  | none => none
  | some library_path =>
    match pipe.module_to_object module.module opt_level with
    | none => none
    | some object_data =>
      match pipe.object_to_shared_lib object_data library_path with
      | none => none
      | some _ =>
        match pipe.library_new library_path with
        | none => none
        | some library =>
          match module.metadata.remove with
          | none => none
          | some (gas_metadata, _) =>
            some { library, registry := module.registry, gas_metadata }

end AotNativeExecutor

/-! ## Concrete fixtures used by witnesses and counterexamples -/

/-- A trivial invocation core (stand-in target code) returning a fixed result. -/
def trivialCore (H : Type) : InvokeCore H := fun _ _ _ _ _ _ =>
  { remaining_gas := none, return_value := .Struct [] none, failure_flag := false }

/-- An executor fixture with no exported symbols, an empty registry and an empty
cost table. -/
def emptyExecutor : AotNativeExecutor :=
  { library := ⟨[]⟩, registry := ⟨[]⟩, gas_metadata := ⟨[]⟩ }

/-- A function id fixture. -/
def fid7 : FunctionId := ⟨7, none⟩

/-- An executor fixture whose registry declares `fid7` (with the empty signature)
but whose artifact exports no symbol for it, and whose cost table is empty. -/
def noSymbolExecutor : AotNativeExecutor :=
  { library := ⟨[]⟩, registry := ⟨[(fid7, ⟨[], []⟩)]⟩, gas_metadata := ⟨[]⟩ }

/-- An executor fixture whose artifact exports the mangled symbol for `fid7` at
address 1, with `fid7` declared in the registry and costed at 100. -/
def goodExecutor : AotNativeExecutor :=
  { library := ⟨[("_mlir_ciface_f7", 1)]⟩
    registry := ⟨[(fid7, ⟨[], []⟩)]⟩
    gas_metadata := ⟨[(fid7, 100)]⟩ }

/-- A pipeline fixture on which every construction step succeeds, loading the
artifact of `goodExecutor`. -/
def goodPipeline : CompilerPipeline :=
  { named_temp_file_new := some "tmpfile"
    module_to_object := fun _ _ => some [0]
    object_to_shared_lib := fun _ _ => some ()
    library_new := fun _ => some ⟨[("_mlir_ciface_f7", 1)]⟩ }

/-- A native-module fixture whose metadata store holds the gas entry of
`goodExecutor`. -/
def goodNativeModule : NativeModule :=
  { module := 0
    registry := ⟨[(fid7, ⟨[], []⟩)]⟩
    metadata := { gas := some ⟨[(fid7, 100)]⟩, others := [3] } }

/-! ## Theorems -/

/-- Helper: a successful association-list lookup returns one of the stored
values, so a positivity invariant on the stored values transfers to it. -/
theorem lookup_pos_of_all_pos {l : List (String × Nat)} {k : String} {v : Nat}
    (hall : ∀ s ∈ l, 0 < s.2) (h : l.lookup k = some v) : 0 < v := by
  induction l with
  | nil => simp [List.lookup] at h
  | cons p l ih =>
    rw [List.lookup] at h
    by_cases hk : k == p.1
    · simp only [hk] at h
      cases h
      exact hall p (List.mem_cons_self p l)
    · simp only [Bool.not_eq_true] at hk
      simp only [hk] at h
      exact ih (fun s hs => hall s (List.mem_cons_of_mem p hs)) h

/-- C4: lowering the unconditional jump, for every context, registry, insertion
point, location, helper, metadata-store contents and descriptor, appends exactly
one operation to the entry block — an unconditional branch to declared successor
branch 0 carrying zero operands — leaves the pre-existing operations and the
metadata store untouched, and does nothing else; in particular the block grows by
exactly one operation (never zero, never more). -/
theorem unconditional_jump_build_appends_single_branch
    (context : Context) (registry : ProgramRegistry) (entry : Block)
    (location : Location) (helper : LibfuncHelper) (metadata : MetadataStorage)
    (info : SignatureOnlyConcreteLibfunc) :
    UnconditionalJump.build context registry entry location helper metadata info =
      .ok (entry ++ [BlockOperation.branch (helper.successors.getD 0 0) [] location],
        metadata) ∧
    (entry ++ [BlockOperation.branch (helper.successors.getD 0 0) [] location]).length
      = entry.length + 1 := by
  refine ⟨rfl, by simp⟩

/-- C8: the unconditional-jump lowering is statically infallible: its error type
`Infallible` is uninhabited (no failure value can be constructed at all), and for
every input it returns a successful result. -/
theorem unconditional_jump_build_infallible :
    (∀ (context : Context) (registry : ProgramRegistry) (entry : Block)
      (location : Location) (helper : LibfuncHelper) (metadata : MetadataStorage)
      (info : SignatureOnlyConcreteLibfunc),
      ∃ r, UnconditionalJump.build context registry entry location helper metadata info
        = .ok r) ∧ IsEmpty Infallible :=
  ⟨fun _ _ _ _ _ _ _ => ⟨_, rfl⟩, ⟨fun f => nomatch f⟩⟩

/-- C2: for every invocation core, executor, function id, gas option and handler,
`invoke_contract_dynamic` on scalar inputs `args` equals
`invoke_dynamic_with_syscall_handler` on the single composite calldata argument
`Struct { fields: [Array (args.map Felt252)], debug_name: None }` followed by
reshaping the successful result with `from_execution_result`; the wrapping is
pure and preserves the order of `args`. -/
theorem invoke_contract_dynamic_refines_syscall_invoke {H : Type}
    (core : InvokeCore H) (e : AotNativeExecutor) (function_id : FunctionId)
    (args : List Felt) (gas : Option Nat) (syscall_handler : H) :
    e.invoke_contract_dynamic core function_id args gas syscall_handler =
      (e.invoke_dynamic_with_syscall_handler core function_id
        [JitValue.Struct [JitValue.Array (args.map JitValue.Felt252)] none]
        gas syscall_handler).map ContractExecutionResult.from_execution_result := by
  unfold AotNativeExecutor.invoke_contract_dynamic
    AotNativeExecutor.invoke_dynamic_with_syscall_handler
  cases e.gas_metadata.get_initial_available_gas function_id gas with
  | error c => rfl
  | ok available_gas =>
    cases e.find_function_ptr function_id with
    | none => rfl
    | some ptr =>
      cases e.extract_signature function_id with
      | none => rfl
      | some signature => rfl

/-- C6: initial-gas resolution is a pure function of the triple
(function id, explicit gas, metadata) — it is defined as a function of exactly
those three inputs — and whenever explicit gas is given it takes precedence:
the result is that explicit value, whatever the metadata (and whatever the
function id) would have contributed. -/
theorem get_initial_available_gas_explicit_wins
    (md md' : GasMetadata) (function_id function_id' : FunctionId) (g : Nat) :
    md.get_initial_available_gas function_id (some g) = .ok g ∧
    md.get_initial_available_gas function_id (some g)
      = md'.get_initial_available_gas function_id' (some g) :=
  ⟨rfl, rfl⟩

/-- C1: in all three public invocation operations, initial-gas resolution happens
before any native code runs: whenever the gas-metadata query fails (neither
explicit gas nor metadata establishes a value), each operation returns the
`InsufficientGasError` typed error. The conclusion holds for every invocation
core and mentions none of them, so the native entry point is never invoked and
no partial execution occurs. -/
theorem gas_resolution_precedes_native_invocation {H : Type}
    (core : InvokeCore DummySyscallHandler) (coreS coreC : InvokeCore H)
    (e : AotNativeExecutor) (function_id : FunctionId) (args : List JitValue)
    (calldata : List Felt) (gas : Option Nat) (syscall_handler : H)
    (c : GasMetadataError)
    (h : e.gas_metadata.get_initial_available_gas function_id gas = .error c) :
    e.invoke_dynamic core function_id args gas = .err .InsufficientGasError ∧
    e.invoke_dynamic_with_syscall_handler coreS function_id args gas syscall_handler
      = .err .InsufficientGasError ∧
    e.invoke_contract_dynamic coreC function_id calldata gas syscall_handler
      = .err .InsufficientGasError := by
  unfold AotNativeExecutor.invoke_dynamic
    AotNativeExecutor.invoke_dynamic_with_syscall_handler
    AotNativeExecutor.invoke_contract_dynamic
  rw [h]
  exact ⟨rfl, rfl, rfl⟩

/-- Witness for C1: on an executor with an empty cost table and no explicit gas,
all three operations return `InsufficientGasError`. -/
theorem gas_resolution_precedes_native_invocation_witness :
    emptyExecutor.invoke_dynamic (trivialCore DummySyscallHandler) fid7 [] none
      = .err .InsufficientGasError ∧
    emptyExecutor.invoke_dynamic_with_syscall_handler (trivialCore Unit) fid7 [] none ()
      = .err .InsufficientGasError ∧
    emptyExecutor.invoke_contract_dynamic (trivialCore Unit) fid7 [] none ()
      = .err .InsufficientGasError :=
  gas_resolution_precedes_native_invocation (trivialCore DummySyscallHandler)
    (trivialCore Unit) (trivialCore Unit) emptyExecutor fid7 [] [] none ()
    .missingEntry rfl

/-- C3 counterexample: on an executor whose registry declares `fid7` but whose
artifact exports no symbol for it, invoking with explicit sufficient gas
(`some 10`) does not return a typed symbol-resolution error as the claim states:
it aborts (the `unwrap` panic in `find_function_ptr`), so the failure mode is a
panic, not a typed error from the public entry point. -/
theorem missing_symbol_typed_error_counterexample :
    noSymbolExecutor.invoke_dynamic (trivialCore DummySyscallHandler) fid7 []
        (some 10) = .panic ∧
      noSymbolExecutor.invoke_dynamic (trivialCore DummySyscallHandler) fid7 []
        (some 10) ≠ .err Error.SymbolResolutionError :=
  ⟨rfl, fun h => InvokeOutcome.noConfusion h⟩

/-- C3 (amended): when gas resolution succeeds but the entry-point symbol is
absent from the loaded artifact, each of the three invocation operations fails by
aborting (the `unwrap` panic), not by returning any typed error. -/
theorem missing_symbol_aborts {H : Type}
    (core : InvokeCore DummySyscallHandler) (coreS coreC : InvokeCore H)
    (e : AotNativeExecutor) (function_id : FunctionId) (args : List JitValue)
    (calldata : List Felt) (gas : Option Nat) (syscall_handler : H) (g : Nat)
    (hg : e.gas_metadata.get_initial_available_gas function_id gas = .ok g)
    (hp : e.find_function_ptr function_id = none) :
    e.invoke_dynamic core function_id args gas = .panic ∧
    e.invoke_dynamic_with_syscall_handler coreS function_id args gas syscall_handler
      = .panic ∧
    e.invoke_contract_dynamic coreC function_id calldata gas syscall_handler
      = .panic := by
  unfold AotNativeExecutor.invoke_dynamic
    AotNativeExecutor.invoke_dynamic_with_syscall_handler
    AotNativeExecutor.invoke_contract_dynamic
  rw [hg, hp]
  exact ⟨rfl, rfl, rfl⟩

/-- Witness for the amended C3: with explicit gas 10 and a missing symbol, all
three operations abort. -/
theorem missing_symbol_aborts_witness :
    noSymbolExecutor.invoke_dynamic (trivialCore DummySyscallHandler) fid7 []
      (some 10) = .panic ∧
    noSymbolExecutor.invoke_dynamic_with_syscall_handler (trivialCore Unit) fid7 []
      (some 10) () = .panic ∧
    noSymbolExecutor.invoke_contract_dynamic (trivialCore Unit) fid7 []
      (some 10) () = .panic :=
  missing_symbol_aborts (trivialCore DummySyscallHandler) (trivialCore Unit)
    (trivialCore Unit) noSymbolExecutor fid7 [] [] (some 10) () 10 rfl rfl

/-- C5: `find_function_ptr` resolves exactly the symbol named by the fixed
`_mlir_ciface_` prefix concatenated with the canonical mangling of the id. Under
the loader invariant that every exported symbol has a non-null address, an id
whose symbol is present yields that non-null pointer; an id whose symbol is
absent fails deterministically on every executor sharing the same loaded
artifact. -/
theorem find_function_ptr_resolves_mangled_symbol
    (e : AotNativeExecutor) (function_id : FunctionId)
    (hsym : ∀ s ∈ e.library.symbols, 0 < s.2) :
    (∀ ptr,
      e.library.get ("_mlir_ciface_" ++ generate_function_name function_id)
          = some ptr →
        e.find_function_ptr function_id = some ptr ∧ 0 < ptr) ∧
    (e.library.get ("_mlir_ciface_" ++ generate_function_name function_id) = none →
      ∀ e' : AotNativeExecutor, e'.library = e.library →
        e'.find_function_ptr function_id = none) := by
  constructor
  · intro ptr h
    exact ⟨h, lookup_pos_of_all_pos hsym h⟩
  · intro h e' he
    unfold AotNativeExecutor.find_function_ptr
    rw [he]
    exact h

/-- Witness for C5: on `goodExecutor` the symbol `_mlir_ciface_f7` is exported at
the non-null address 1 and resolution returns it; on `emptyExecutor` (for the
second half, with its trivially non-null symbol table) resolution for `fid7`
fails. -/
theorem find_function_ptr_resolves_mangled_symbol_witness :
    (goodExecutor.find_function_ptr fid7 = some 1 ∧ 0 < 1) ∧
    emptyExecutor.find_function_ptr fid7 = none :=
  ⟨(find_function_ptr_resolves_mangled_symbol goodExecutor fid7
      (by intro s hs; simp [goodExecutor] at hs; simp [hs])).1 1 (by decide),
    (find_function_ptr_resolves_mangled_symbol emptyExecutor fid7
      (by intro s hs; simp [emptyExecutor] at hs)).2 rfl emptyExecutor rfl⟩

/-- C7: the call path of `invoke_dynamic` is deterministic: two invocations on
the same executor with identical function id, arguments and explicit gas produce
identical results; moreover the error and abort outcomes of the call path are
independent of the target code — swapping the invocation core for any other
leaves the typed-error and abort classifications unchanged. -/
theorem invoke_dynamic_call_path_deterministic
    (core core' : InvokeCore DummySyscallHandler) (e : AotNativeExecutor)
    (function_id : FunctionId) (args : List JitValue) (gas : Option Nat)
    (er : Error) (r₁ r₂ : InvokeOutcome ExecutionResult)
    (h₁ : e.invoke_dynamic core function_id args gas = r₁)
    (h₂ : e.invoke_dynamic core function_id args gas = r₂) :
    r₁ = r₂ ∧
    (e.invoke_dynamic core function_id args gas = .err er ↔
      e.invoke_dynamic core' function_id args gas = .err er) ∧
    (e.invoke_dynamic core function_id args gas = .panic ↔
      e.invoke_dynamic core' function_id args gas = .panic) := by
  refine ⟨h₁.symm.trans h₂, ?_, ?_⟩ <;>
  · unfold AotNativeExecutor.invoke_dynamic
    cases e.gas_metadata.get_initial_available_gas function_id gas with
    | error c => exact Iff.rfl
    | ok available_gas =>
      cases e.find_function_ptr function_id with
      | none => exact Iff.rfl
      | some ptr =>
        cases e.extract_signature function_id with
        | none => exact Iff.rfl
        | some signature =>
          constructor <;> (intro h; exact absurd h (fun h => InvokeOutcome.noConfusion h))

/-- Witness for C7: two invocations on `emptyExecutor` with no explicit gas both
resolve to the `InsufficientGasError` outcome, and the classification agrees with
an invocation core that returns a different result. -/
theorem invoke_dynamic_call_path_deterministic_witness :
    (InvokeOutcome.err Error.InsufficientGasError : InvokeOutcome ExecutionResult)
        = .err Error.InsufficientGasError ∧
    (emptyExecutor.invoke_dynamic (trivialCore DummySyscallHandler) fid7 [] none
        = .err Error.InsufficientGasError ↔
      emptyExecutor.invoke_dynamic
          (fun _ _ _ _ available_gas _ =>
            { remaining_gas := some available_gas
              return_value := .Felt252 0
              failure_flag := true }) fid7 [] none
        = .err Error.InsufficientGasError) ∧
    (emptyExecutor.invoke_dynamic (trivialCore DummySyscallHandler) fid7 [] none
        = .panic ↔
      emptyExecutor.invoke_dynamic
          (fun _ _ _ _ available_gas _ =>
            { remaining_gas := some available_gas
              return_value := .Felt252 0
              failure_flag := true }) fid7 [] none
        = .panic) :=
  invoke_dynamic_call_path_deterministic (trivialCore DummySyscallHandler)
    (fun _ _ _ _ available_gas _ =>
      { remaining_gas := some available_gas
        return_value := .Felt252 0
        failure_flag := true })
    emptyExecutor fid7 [] none Error.InsufficientGasError
    (.err Error.InsufficientGasError) (.err Error.InsufficientGasError) rfl rfl

/-- C10: in all three public invocation operations, every failure of initial-gas
resolution — whatever its underlying cause — is collapsed into the single
`InsufficientGasError`, and that is the only typed error any of the operations
ever returns: whenever an operation returns a typed error at all, it is
`InsufficientGasError` (missing-symbol and missing-registry failures abort
instead, as the `panic` outcome). -/
theorem insufficient_gas_is_only_typed_error {H : Type}
    (core : InvokeCore DummySyscallHandler) (coreS coreC : InvokeCore H)
    (e : AotNativeExecutor) (function_id : FunctionId) (args : List JitValue)
    (calldata : List Felt) (gas : Option Nat) (syscall_handler : H) :
    (∀ c, e.gas_metadata.get_initial_available_gas function_id gas = .error c →
      e.invoke_dynamic core function_id args gas = .err .InsufficientGasError ∧
      e.invoke_dynamic_with_syscall_handler coreS function_id args gas syscall_handler
        = .err .InsufficientGasError ∧
      e.invoke_contract_dynamic coreC function_id calldata gas syscall_handler
        = .err .InsufficientGasError) ∧
    (∀ er, e.invoke_dynamic core function_id args gas = .err er →
      er = .InsufficientGasError) ∧
    (∀ er, e.invoke_dynamic_with_syscall_handler coreS function_id args gas
        syscall_handler = .err er → er = .InsufficientGasError) ∧
    (∀ er, e.invoke_contract_dynamic coreC function_id calldata gas syscall_handler
        = .err er → er = .InsufficientGasError) := by
  refine ⟨fun c h => gas_resolution_precedes_native_invocation core coreS coreC e
    function_id args calldata gas syscall_handler c h, ?_, ?_, ?_⟩ <;>
  · intro er
    simp only [AotNativeExecutor.invoke_dynamic,
      AotNativeExecutor.invoke_dynamic_with_syscall_handler,
      AotNativeExecutor.invoke_contract_dynamic]
    cases e.gas_metadata.get_initial_available_gas function_id gas with
    | error c => intro h; cases h; rfl
    | ok available_gas =>
      cases e.find_function_ptr function_id with
      | none => intro h; exact absurd h (fun h => InvokeOutcome.noConfusion h)
      | some ptr =>
        cases e.extract_signature function_id with
        | none => intro h; exact absurd h (fun h => InvokeOutcome.noConfusion h)
        | some signature =>
          intro h; exact absurd h (fun h => InvokeOutcome.noConfusion h)

/-- Witness for C10: on `emptyExecutor` with no explicit gas, gas resolution
fails with a missing entry, every operation returns `InsufficientGasError`, and
the returned typed error is indeed `InsufficientGasError`. -/
theorem insufficient_gas_is_only_typed_error_witness :
    (emptyExecutor.invoke_dynamic (trivialCore DummySyscallHandler) fid7 [] none
        = .err .InsufficientGasError ∧
      emptyExecutor.invoke_dynamic_with_syscall_handler (trivialCore Unit) fid7 []
        none () = .err .InsufficientGasError ∧
      emptyExecutor.invoke_contract_dynamic (trivialCore Unit) fid7 [] none ()
        = .err .InsufficientGasError) ∧
    Error.InsufficientGasError = Error.InsufficientGasError :=
  ⟨(insufficient_gas_is_only_typed_error (trivialCore DummySyscallHandler)
      (trivialCore Unit) (trivialCore Unit) emptyExecutor fid7 [] [] none ()).1
      .missingEntry rfl,
    (insufficient_gas_is_only_typed_error (trivialCore DummySyscallHandler)
      (trivialCore Unit) (trivialCore Unit) emptyExecutor fid7 [] [] none ()).2.1
      Error.InsufficientGasError rfl⟩

/-- C9: constructing an executor from a `NativeModule` yields an executor exactly
when the temporary path is created, the module IR compiles to an object, the
object links into a loadable artifact, the artifact loads, and the gas-metadata
entry is present to be extracted from the module's metadata store — and then the
executor consists of the loaded artifact, the module's registry and the extracted
gas metadata; any failure at any step produces no (partial) executor. The second
part records that the extraction removes the entry from the store. -/
theorem from_native_module_pipeline
    (pipe : CompilerPipeline) (m : NativeModule) (opt_level : OptLevel)
    (e : AotNativeExecutor) :
    (AotNativeExecutor.from_native_module pipe m opt_level = some e ↔
      ∃ library_path object_data library gas_metadata,
        pipe.named_temp_file_new = some library_path ∧
        pipe.module_to_object m.module opt_level = some object_data ∧
        pipe.object_to_shared_lib object_data library_path = some () ∧
        pipe.library_new library_path = some library ∧
        m.metadata.gas = some gas_metadata ∧
        e = { library := library, registry := m.registry,
              gas_metadata := gas_metadata }) ∧
    (∀ gas_metadata rest, m.metadata.remove = some (gas_metadata, rest) →
      m.metadata.gas = some gas_metadata ∧ rest.gas = none) := by
  constructor
  · constructor
    · intro h
      rw [AotNativeExecutor.from_native_module] at h
      cases h1 : pipe.named_temp_file_new with
      | none => simp only [h1] at h; exact Option.noConfusion h
      | some library_path =>
        simp only [h1] at h
        cases h2 : pipe.module_to_object m.module opt_level with
        | none => simp only [h2] at h; exact Option.noConfusion h
        | some object_data =>
          simp only [h2] at h
          cases h3 : pipe.object_to_shared_lib object_data library_path with
          | none => simp only [h3] at h; exact Option.noConfusion h
          | some u =>
            simp only [h3] at h
            cases h4 : pipe.library_new library_path with
            | none => simp only [h4] at h; exact Option.noConfusion h
            | some library =>
              simp only [h4] at h
              unfold MetadataStorage.remove at h
              cases h5 : m.metadata.gas with
              | none => simp only [h5] at h; exact Option.noConfusion h
              | some gas_metadata =>
                simp only [h5] at h
                cases u
                exact ⟨library_path, object_data, library, gas_metadata,
                  rfl, rfl, h3, h4, rfl, (Option.some.inj h).symm⟩
    · rintro ⟨library_path, object_data, library, gas_metadata, h1, h2, h3, h4, h5, he⟩
      subst he
      rw [AotNativeExecutor.from_native_module]
      unfold MetadataStorage.remove
      simp only [h1, h2, h3, h4, h5]
  · intro gas_metadata rest h
    unfold MetadataStorage.remove at h
    cases h5 : m.metadata.gas with
    | none => simp only [h5] at h; exact Option.noConfusion h
    | some g =>
      simp only [h5] at h
      injection h with h
      injection h with ha hb
      subst ha
      subst hb
      exact ⟨rfl, rfl⟩

/-- Witness for C9: on `goodPipeline` and `goodNativeModule`, every step succeeds
and construction yields exactly `goodExecutor`; and the extraction of the gas
entry removes it from the store. -/
theorem from_native_module_pipeline_witness :
    AotNativeExecutor.from_native_module goodPipeline goodNativeModule
        OptLevel.Default = some goodExecutor ∧
    (goodNativeModule.metadata.gas = some ⟨[(fid7, 100)]⟩ ∧
      (⟨none, [3]⟩ : MetadataStorage).gas = none) :=
  ⟨(from_native_module_pipeline goodPipeline goodNativeModule OptLevel.Default
      goodExecutor).1.mpr
      ⟨"tmpfile", [0], ⟨[("_mlir_ciface_f7", 1)]⟩, ⟨[(fid7, 100)]⟩,
        rfl, rfl, rfl, rfl, rfl, rfl⟩,
    (from_native_module_pipeline goodPipeline goodNativeModule OptLevel.Default
      goodExecutor).2 ⟨[(fid7, 100)]⟩ ⟨none, [3]⟩ rfl⟩

end CairoNative
